import Mathlib

/-!
Shallow embedding of the wparc WordPress API crawler
(src/wparc/wpapi/crawler.py) and proofs about it.

Python values flowing through the crawler are modelled by an explicit JSON
value type; machine effects (HTTP requests, the filesystem) are modelled by
oracles passed to each function; a raised Python exception is modelled by
the error side of an Except result.
-/

namespace Wparc

/-- JSON values as produced by json.loads and resp.json. Objects keep their
fields as an association list with unique keys, matching Python dicts. -/
inductive JVal where
  | null
  | bool (b : Bool)
  | num (n : Int)
  | str (s : String)
  | arr (items : List JVal)
  | obj (fields : List (String × JVal))

/-- Python d.get(k) / k in d on an object; any other receiver has no field. -/
def JVal.getField : JVal → String → Option JVal
  | .obj fields, k => List.lookup k fields
  | _, _ => none

/-- Python isinstance(v, dict). -/
def JVal.isObj : JVal → Bool
  | .obj _ => true
  | _ => false

/-- Python runtime exception kinds that escape the modelled functions. -/
inductive PyErr where
  | attrErr
  | keyErr
  | typeErr
deriving DecidableEq

/-- Python s.strip(c) for one character: drop leading and trailing copies.
Implemented over the character list so that applications reduce. -/
def pyStripChar (c : Char) (s : String) : String :=
  String.mk (((s.data.dropWhile (· == c)).reverse.dropWhile (· == c)).reverse)

/-- Python s.lstrip sub for the slash character. -/
def pyLStripSlash (s : String) : String :=
  String.mk (s.data.dropWhile (· == '/'))

/-- Whether the first list is a prefix of the second, by character. -/
def isPfxList : List Char → List Char → Bool
  | [], _ => true
  | _ :: _, [] => false
  | a :: as, b :: bs => a == b && isPfxList as bs

/-- Substring search on character lists. -/
def containsList (needle : List Char) : List Char → Bool
  | [] => isPfxList needle []
  | c :: cs => isPfxList needle (c :: cs) || containsList needle cs

/-- Python membership test needle in hay. -/
def pySubstr (needle hay : String) : Bool :=
  containsList needle.data hay.data

/-- Python str.split on one separator character, keeping empty parts. -/
def splitChar (c : Char) : List Char → List (List Char)
  | [] => [[]]
  | x :: xs =>
    if x == c then [] :: splitChar c xs
    else
      match splitChar c xs with
      | h :: t => (x :: h) :: t
      | [] => [[x]]

/-- Python str.split on one separator character, as strings. -/
def pySplit (c : Char) (s : String) : List String :=
  (splitChar c s.data).map String.mk

/-- Python str.replace for single characters on both sides. -/
def replaceChar (c d : Char) (s : String) : String :=
  String.mk (s.data.map (fun x => if x == c then d else x))

/-- Leading match removal: when the needle is a prefix, the remainder. -/
def dropPfxList : List Char → List Char → Option (List Char)
  | [], l => some l
  | _ :: _, [] => none
  | a :: as, b :: bs => if a == b then dropPfxList as bs else none

/-- Left-to-right non-overlapping split on a multi-character separator, with
a step budget bounding the recursion (each step consumes at least one
character for a non-empty separator, so the list length is budget enough). -/
def splitSeqAux (needle : List Char) : Nat → List Char → List (List Char)
  | 0, l => [l]
  | _ + 1, [] => [[]]
  | fuel + 1, c :: cs =>
    match dropPfxList needle (c :: cs) with
    | some rest => [] :: splitSeqAux needle fuel rest
    | none =>
      match splitSeqAux needle fuel cs with
      | h :: t => (c :: h) :: t
      | [] => [[c]]

/-- Python str.split on a non-empty multi-character separator. -/
def splitSeq (needle s : String) : List String :=
  if needle.data.isEmpty then [s]
  else (splitSeqAux needle.data s.data.length s.data).map String.mk

/-- Concatenation of parts with a separator between them. -/
def joinWith (sep : String) : List String → String
  | [] => ""
  | [x] => x
  | x :: y :: rest => x ++ sep ++ joinWith sep (y :: rest)

/-- Whitespace recognised by Python int when trimming its argument. -/
def isSpaceChar (c : Char) : Bool :=
  c == ' ' || c == '\t' || c == '\n' || c == '\r'

/-- Decimal digit run to a number; none when empty or not all digits. -/
def digitsToNat (ds : List Char) : Option Nat :=
  if ds.isEmpty || !ds.all Char.isDigit then none
  else some (ds.foldl (fun acc c => acc * 10 + (c.toNat - 48)) 0)

/-- Python int applied to a header value, modelled for plain decimal
numerals: optional surrounding whitespace, an optional sign, then digits;
anything else raises ValueError, modelled as none. -/
def pyInt (s : String) : Option Int :=
  let core := ((s.data.dropWhile isSpaceChar).reverse.dropWhile isSpaceChar).reverse
  match core with
  | '-' :: ds => (digitsToNat ds).map (fun n => -(n : Int))
  | '+' :: ds => (digitsToNat ds).map (fun n => (n : Int))
  | ds => (digitsToNat ds).map (fun n => (n : Int))

/-- Python truthiness of an optional JSON value, as used in tests such as
if route_url. -/
def pyTruthy : Option JVal → Bool
  | none => false
  | some .null => false
  | some (.bool b) => b
  | some (.num n) => n != 0
  | some (.str s) => !s.data.isEmpty
  | some (.arr items) => !items.isEmpty
  | some (.obj fields) => !fields.isEmpty

/-! ## Checkpoint loading (crawler.py lines 261-281) -/

/-- Input to the checkpoint loader: none is an absent file, some none is a
file whose content json.load rejects (JSONDecodeError), some (some j) is a
file parsing to the document j. An IOError while reading behaves like the
JSONDecodeError case (both are caught by the same handler). -/
abbrev CheckpointFile := Option (Option JVal)

/-- Python set(v) applied to the downloaded_files value: iterating a list
succeeds when every element is hashable, while a list or dict element raises
TypeError; iterating a string yields its characters; iterating a dict
yields its keys; any other receiver is not iterable and raises TypeError. -/
def pySetOfDownloaded : JVal → Except PyErr (List JVal)
  | .arr items =>
    if items.all (fun it => match it with | .arr _ => false | .obj _ => false | _ => true)
    then .ok items else .error .typeErr
  | .str s => .ok (s.data.map (fun c => .str (String.mk [c])))
  | .obj fields => .ok (fields.map (fun f => .str f.1))
  | _ => .error .typeErr

/-- Model of the private checkpoint loader: an absent file and unparseable
content both fall back to the empty set (the handler catches IOError and
JSONDecodeError and logs Starting fresh); a document that parses but is not
a dict raises AttributeError at data.get, which no handler catches. -/
def load_checkpoint : CheckpointFile → Except PyErr (List JVal)
  | none => .ok []
  | some none => .ok []
  | some (some data) =>
    match data with
    | .obj fields => pySetOfDownloaded ((List.lookup "downloaded_files" fields).getD (.arr []))
    | _ => .error .attrErr

/-! ## Self link resolution (crawler.py lines 457-479) -/

/-- Model of get_self_url: the ok side carries the href value when a self
link is found and none when the function returns None; the error side marks
a raised exception (AttributeError when a keys call hits a non-dict,
KeyError when an href index is missing, TypeError when a list element does
not support string indexing). -/
def get_self_url (data : JVal) : Except PyErr (Option JVal) :=
  match data with
  | .obj fields =>
    match List.lookup "_links" fields with
    | none => .ok none
    | some links =>
      match links with
      | .obj linkFields =>
        match List.lookup "self" linkFields with
        | none => .ok none
        | some selfVal =>
          match selfVal with
          | .obj selfFields =>
            match List.lookup "href" selfFields with
            | some h => .ok (some h)
            | none => .error .keyErr
          | .str s => .ok (some (.str s))
          | .arr [] => .ok none
          | .arr (first :: _) =>
            match first with
            | .obj firstFields =>
              match List.lookup "href" firstFields with
              | some h => .ok (some h)
              | none => .error .keyErr
            | _ => .error .typeErr
          | _ => .ok none
      | _ => .error .attrErr
  | _ => .error .attrErr

/-- A route descriptor whose only content is a self link of shape v. -/
def selfLinkRD (v : JVal) : JVal :=
  .obj [("_links", .obj [("self", v)])]

/-! ## Paginated dump engine (crawler.py lines 482-614) -/

/-- One HTTP response as seen by the dump loop: status code, the two
optional pagination headers, and the parsed body (none when resp.json
raises ValueError). -/
structure WpResponse where
  status : Nat
  totalPagesHdr : Option String
  totalHdr : Option String
  body : Option JVal

/-- Result of one requests.get attempt inside the retry loop: a response, a
raised RequestException, or a raised KeyboardInterrupt. -/
inductive Attempt where
  | resp (r : WpResponse)
  | transErr
  | interrupt

/-- Outcome of the bounded per-page retry loop. -/
inductive RetryOutcome where
  | gotResp (r : WpResponse)
  | failedAll
  | interrupted

/-- The per-page retry loop (lines 511-536), with attempts numbered from rc.
A raised request, or raise_for_status rejecting a 4xx or 5xx status, is a
failed attempt; the first accepted response breaks out; KeyboardInterrupt is
re-raised; exhausting the attempt budget (covering both the rc equal to
retry_count return and the resp still None return for a zero budget) fails
the whole dump. -/
def retryLoopFrom (att : Nat → Attempt) (rc : Nat) : Nat → RetryOutcome
  | 0 => .failedAll
  | remaining + 1 =>
    match att rc with
    | .interrupt => .interrupted
    | .transErr => retryLoopFrom att (rc + 1) remaining
    | .resp r => if 400 ≤ r.status then retryLoopFrom att (rc + 1) remaining else .gotResp r

/-- The retry loop started at attempt 1 with retry_count attempts allowed. -/
def retryLoop (att : Nat → Attempt) (retry_count : Nat) : RetryOutcome :=
  retryLoopFrom att 1 retry_count

/-- Outcome of dump_route_list: written rows means the output file was
created holding the accumulated rows, one json.dumps line per row; aborted
means the function returned early after exhausting retries for some page,
before any file write; interrupted propagates KeyboardInterrupt; noFuel
marks runs longer than the supplied page budget (the source loop is a
while True with no such bound). -/
inductive DumpOutcome where
  | written (rows : List JVal)
  | aborted
  | interrupted
  | noFuel

/-- Truthiness test if total_pages on the parsed header value. -/
def tpTruthy : Option Int → Bool
  | none => false
  | some t => t != 0

/-- Header extraction performed on page 1 (lines 543-555): a present and
non-empty header string is parsed with int; unparseable values are logged
and ignored, leaving the hint unset. -/
def readTotalPages (r : WpResponse) : Option Int :=
  match r.totalPagesHdr with
  | none => none
  | some s => if s.data.isEmpty then none else pyInt s

/-- The page loop of dump_route_list (lines 506-587), with an explicit page
budget standing in for the unbounded while True. The oracle att gives the
result of each numbered attempt for each page; page is the page about to be
requested, outdata the accumulated rows, total_pages the hint captured on
page 1. The per_page size and ordering query parameters only shape the
request URL, which the oracle abstracts. -/
def dumpPages (att : Nat → Nat → Attempt) (retry_count : Nat) :
    Nat → Nat → List JVal → Option Int → DumpOutcome
  | 0, _, _, _ => .noFuel
  | fuel + 1, page, outdata, total_pages =>
    match retryLoop (att page) retry_count with
    | .interrupted => .interrupted
    | .failedAll => .aborted
    | .gotResp r =>
      if r.status ≠ 200 then .written outdata
      else
        let tp := if page = 1 then readTotalPages r else total_pages
        match r.body with
        | none => .written outdata
        | some (.obj _) => .written outdata
        | some (.arr rows) =>
          if rows.isEmpty then .written outdata
          else
            let outdata' := outdata ++ rows
            if tpTruthy tp ∧ tp.getD 0 ≤ (page : Int) then .written outdata'
            else dumpPages att retry_count fuel (page + 1) outdata' tp
        | some _ => .written outdata

/-- Output file name of dump_route_list (line 500): strip slashes from both
ends of the route, replace the rest with underscores, add the jsonl suffix. -/
def listOutFileName (route : String) : String :=
  replaceChar '/' '_' (pyStripChar '/' route) ++ ".jsonl"

/-- Model of dump_route_list: run the page loop from page 1 with an empty
accumulator and no pagination hint. -/
def dump_route_list (att : Nat → Nat → Attempt) (retry_count fuel : Nat) : DumpOutcome :=
  dumpPages att retry_count fuel 1 [] none

/-- Number of lines of the written jsonl file: one json.dumps line per
accumulated row (lines 608-611); none when no file was written. -/
def writtenLineCount : DumpOutcome → Option Nat
  | .written rows => some rows.length
  | _ => none

/-! ## Singleton dump (crawler.py lines 617-645) -/

/-- Route categories, the strings returned by the classifier. -/
inductive RouteCategory where
  | prot
  | publicList
  | publicDict
  | useless
deriving DecidableEq

/-- Result of one probe GET inside the classifier. No raise_for_status is
called there, so 4xx statuses are observable responses: a response carries
the status and the parsed body (none when resp.json raises ValueError);
transErr is a raised RequestException. -/
inductive ProbeResult where
  | resp (status : Nat) (body : Option JVal)
  | transErr

/-- The condition guarding the paginated probe (line 859) and its reuse in
the fallback (line 922): args is a dict holding both the page and the
per_page keys. -/
def argsPaginated (args : JVal) : Bool :=
  args.isObj && (args.getField "page").isSome && (args.getField "per_page").isSome

/-- Decision of the paginated probe (lines 862-880): protected on 401 or
403, public-list on a 200 list body; every other response, an unparseable
body, and a raised request all fall through. -/
def probe1Decision : ProbeResult → Option RouteCategory
  | .transErr => none
  | .resp status body =>
    if status = 401 ∨ status = 403 then some .prot
    else if status = 200 then
      match body with
      | some (.arr _) => some .publicList
      | _ => none
    else none

/-- The per-item heuristic guard (line 899): the final slash-separated
segment of the route contains a digit and the split yields more than three
parts. Python str.isdigit on ASCII text agrees with Char.isDigit. -/
def routeLooksPerItem (route : String) : Bool :=
  let parts := pySplit '/' route
  (parts.getLastD "").data.any Char.isDigit && decide (3 < parts.length)

/-- Body test for the per-item heuristic (line 905): the body parses to a
dict containing an id key. -/
def bodyIsObjWithId : Option JVal → Bool
  | some (.obj fields) => (List.lookup "id" fields).isSome
  | _ => false

/-- Decision of the bare self-link probe and its fallbacks (lines 887-927):
a raised request falls back to the declared arguments; a response decides
protected on 401 or 403, useless via the per-item heuristic on a 200 object
with an id, public-list or public-dict by the 200 body shape, and leaves
everything else unresolved. -/
def bareProbeDecision (route : String) (args : JVal) (p2 : ProbeResult) :
    Option RouteCategory :=
  match p2 with
  | .transErr =>
    if argsPaginated args then some .publicList
    else if args.isObj then some .publicDict
    else none
  | .resp status body =>
    if status = 401 ∨ status = 403 then some .prot
    else if routeLooksPerItem route ∧ status = 200 ∧ bodyIsObjWithId body then some .useless
    else if status = 200 then
      match body with
      | some (.arr _) => some .publicList
      | some (.obj _) => some .publicDict
      | _ => none
    else none

/-- Model of the private route tester: p1 answers the per_page=1 page=1
probe, p2 the bare self-link probe. The error side marks an uncaught raised
exception: get_self_url raising, the endpoints value rejecting len or
integer indexing, or a non-dict endpoint rejecting the get call for args.
An obj or str endpoints value of length zero passes the len check and is
treated like an empty list. -/
def test_route (route : String) (route_data : JVal) (p1 p2 : ProbeResult) :
    Except PyErr (Option RouteCategory) :=
  if pySubstr "?P<" route then .ok (some .useless)
  else
    match route_data with
    | .obj rdFields =>
      match (List.lookup "endpoints" rdFields).getD (.arr []) with
      | .arr [] => .ok none
      | .obj [] => .ok none
      | .str "" => .ok none
      | .arr (endpoint :: _) =>
        match endpoint with
        | .obj endpointFields =>
          let args := (List.lookup "args" endpointFields).getD (.obj [])
          let phase1 : Except PyErr (Option RouteCategory) :=
            if argsPaginated args then
              match get_self_url route_data with
              | .error e => .error e
              | .ok routeUrl =>
                if pyTruthy routeUrl then
                  match probe1Decision p1 with
                  | some c => .ok (some c)
                  | none => .ok none
                else .ok none
            else .ok none
          match phase1 with
          | .error e => .error e
          | .ok (some c) => .ok (some c)
          | .ok none =>
            match get_self_url route_data with
            | .error e => .error e
            | .ok routeUrl =>
              if pyTruthy routeUrl then .ok (bareProbeDecision route args p2)
              else .ok none
        | _ => .error .attrErr
      | .obj (_ :: _) => .error .keyErr
      | .str _ => .error .attrErr
      | _ => .error .typeErr
    | _ => .error .attrErr

/-! ## Route discovery and orchestration (crawler.py lines 1012-1201) -/

/-- The known-routes reference table, the four lists of known_routes.yml. -/
structure KnownRoutes where
  prot : List String
  publicList : List String
  publicDict : List String
  useless : List String

/-- Outcome of one dumper call as observed by collect_data: a normal
return, a raised Exception (which the per-route handler catches), or a
raised KeyboardInterrupt (not an Exception, so it escapes the handler). -/
inductive CallOutcome where
  | ok
  | exc
  | kbInt
deriving DecidableEq

/-- What one route contributed to the counters: processed, skipped, or an
escaping KeyboardInterrupt that aborts the whole loop. -/
inductive StepResult where
  | processed
  | skipped
  | interrupt
deriving DecidableEq

/-- The body of the per-route loop of collect_data (lines 1092-1182) for one
route. The oracles give the outcome of the dumper calls; every raised
Exception inside the loop body, including get_self_url raising and the
lookup and keys errors on malformed descriptors in the unknown-route
branch, is caught by the handler and counted as a skip, while a raised
KeyboardInterrupt escapes. -/
def routeStep (kr : KnownRoutes) (get_unknown : Bool)
    (dumpListCall dumpDictCall : String → CallOutcome)
    (route : String) (route_data : JVal) : StepResult :=
  if route ∈ kr.publicList then
    match get_self_url route_data with
    | .error _ => .skipped
    | .ok routeUrl =>
      if routeUrl.isNone then .skipped
      else
        match dumpListCall route with
        | .ok => .processed
        | .exc => .skipped
        | .kbInt => .interrupt
  else if route ∈ kr.publicDict then
    match get_self_url route_data with
    | .error _ => .skipped
    | .ok routeUrl =>
      if routeUrl.isNone then .skipped
      else
        match dumpDictCall route with
        | .ok => .processed
        | .exc => .skipped
        | .kbInt => .interrupt
  else if route ∈ kr.prot then .skipped
  else if route ∈ kr.useless then .skipped
  else if pySubstr "?P" route then .skipped
  else if get_unknown then
    match route_data.getField "endpoints" with
    | none => .skipped
    | some endpointsVal =>
      match endpointsVal with
      | .arr [] => .skipped
      | .arr (endpoint :: _) =>
        match get_self_url route_data with
        | .error _ => .skipped
        | .ok routeUrl =>
          if routeUrl.isNone then .skipped
          else
            match endpoint.getField "args" with
            | none => .skipped
            | some args =>
              match args with
              | .arr _ =>
                match dumpDictCall route with
                | .ok => .processed
                | .exc => .skipped
                | .kbInt => .interrupt
              | .obj argFields =>
                if (List.lookup "page" argFields).isSome ∧
                    (List.lookup "per_page" argFields).isSome then
                  match dumpListCall route with
                  | .ok => .processed
                  | .exc => .skipped
                  | .kbInt => .interrupt
                else
                  match dumpDictCall route with
                  | .ok => .processed
                  | .exc => .skipped
                  | .kbInt => .interrupt
              | _ => .skipped
      | _ => .skipped
  else .skipped

/-- Final state of the route loop: completed with the two counters, or
aborted by a KeyboardInterrupt with the counters as they stood. -/
inductive CollectOutcome where
  | done (processed skipped : Nat)
  | interrupted (processed skipped : Nat)
deriving DecidableEq

/-- The route loop of collect_data: fold routeStep over the discovered
routes, accumulating the two counters and aborting on an escaping
KeyboardInterrupt. -/
def collectLoop (kr : KnownRoutes) (get_unknown : Bool)
    (dumpListCall dumpDictCall : String → CallOutcome) :
    List (String × JVal) → Nat → Nat → CollectOutcome
  | [], p, s => .done p s
  | (route, rd) :: rest, p, s =>
    match routeStep kr get_unknown dumpListCall dumpDictCall route rd with
    | .processed => collectLoop kr get_unknown dumpListCall dumpDictCall rest (p + 1) s
    | .skipped => collectLoop kr get_unknown dumpListCall dumpDictCall rest p (s + 1)
    | .interrupt => .interrupted p s

/-- The route-processing phase of collect_data, started with both counters
at zero over the routes of the discovery document in iteration order. -/
def collect_data_loop (kr : KnownRoutes) (get_unknown : Bool)
    (dumpListCall dumpDictCall : String → CallOutcome)
    (routes : List (String × JVal)) : CollectOutcome :=
  collectLoop kr get_unknown dumpListCall dumpDictCall routes 0 0

/-! ## Checkpointed downloader (crawler.py lines 137-454) -/

/-- One manifest line handed to the url reader: none is a line json.loads
rejects (logged and skipped) or a blank line, some j a parsed value. -/
abbrev ManifestLine := Option JVal

/-- Model of the media url reader (lines 233-258): keep, in order, the
source_url field of every parseable line carrying one; a parsed line without
the field contributes nothing. Modelled for manifests whose source_url
values are strings, the only shape the downloader handles without raising
later in urlparse. -/
def readMediaUrls (lines : List ManifestLine) : List String :=
  lines.filterMap fun l =>
    match l with
    | some j =>
      match j.getField "source_url" with
      | some (.str u) => some u
      | _ => none
    | none => none

/-- Python os.path.join for the relative parts the downloader joins: an
absolute second part replaces the first, an empty or slash-terminated first
part concatenates directly. -/
def pyJoin (a b : String) : String :=
  if isPfxList ['/'] b.data then b
  else if a.data.isEmpty then b
  else if isPfxList ['/'] a.data.reverse then a ++ b
  else a ++ "/" ++ b

/-- The path component of urlparse for the URLs the manifest carries: drop
the fragment, then the query, then a scheme and authority head when the
separator is present; without one the whole remainder is the path. -/
def urlPath (url : String) : String :=
  let noFrag := (pySplit '#' url).headD url
  let noQuery := (pySplit '?' noFrag).headD noFrag
  match splitSeq "://" noQuery with
  | _scheme :: rest :: more =>
    match pySplit '/' (joinWith "://" (rest :: more)) with
    | _host :: p :: ps => "/" ++ joinWith "/" (p :: ps)
    | _ => ""
  | _ => noQuery

/-- Target path of a manifest URL (lines 316-317): join the domain, the
files subdirectory, and the URL path with its leading slashes stripped. -/
def targetPath (domain url : String) : String :=
  pyJoin (pyJoin domain "files") (pyLStripSlash (urlPath url))

/-- Session state threaded through the download tasks: the in-memory
checkpoint set, the set of files on disk, the two counters from the
completion loop, and the number of network fetches actually performed. -/
structure DlState where
  ckpt : List String
  disk : List String
  downloaded : Nat
  failed : Nat
  fetches : Nat

/-- Model of get_file (lines 137-203) for the requests backend: an existing
target file is an immediate success with no fetch; otherwise one fetch
decided by the oracle, creating the file on success; every request failure
is returned as a failed result, not raised. -/
def getFileStep (fetchOk : String → Bool) (url fname : String) (st : DlState) :
    Bool × DlState :=
  if fname ∈ st.disk then (true, st)
  else if fetchOk url then
    (true, { st with disk := fname :: st.disk, fetches := st.fetches + 1 })
  else (false, { st with fetches := st.fetches + 1 })

/-- Model of the per-file download task (lines 301-329): the idempotence
pre-check against the checkpoint set and the disk short-circuits to a
success with no call; otherwise get_file runs and only a successful result
adds the target path to the checkpoint set. -/
def downloadFileTask (fetchOk : String → Bool) (domain url : String) (st : DlState) :
    Bool × DlState :=
  let fname := targetPath domain url
  if fname ∈ st.ckpt ∨ fname ∈ st.disk then (true, st)
  else
    match getFileStep fetchOk url fname st with
    | (true, st') => (true, { st' with ckpt := fname :: st'.ckpt })
    | (false, st') => (false, st')

/-- The pool phase of collect_files (lines 404-424): every dispatched task
runs to a result and the completion loop counts successes into downloaded
and failures into failed. Tasks are independent, so the sequential fold
realises one completion order of the pool. -/
def runTasks (fetchOk : String → Bool) (domain : String) :
    List String → DlState → DlState
  | [], st => st
  | url :: rest, st =>
    match downloadFileTask fetchOk domain url st with
    | (true, st') => runTasks fetchOk domain rest { st' with downloaded := st'.downloaded + 1 }
    | (false, st') => runTasks fetchOk domain rest { st' with failed := st'.failed + 1 }

/-- The statistics dictionary collect_files returns. -/
structure DlStats where
  downloaded : Nat
  failed : Nat
  skipped : Nat
  total : Nat
deriving DecidableEq

/-- Session-level failures of collect_files: the missing-manifest error and
a Python exception escaping the checkpoint load. -/
inductive SessionErr where
  | mediaFileNotFound
  | pyRaise (e : PyErr)
deriving DecidableEq

/-- Result of a collect_files session: the reported statistics, the
checkpoint document persisted at the end (none when the session returned
before the save point or resume is off), and the number of network fetches
performed. -/
structure CFResult where
  stats : DlStats
  savedCkpt : Option (List String)
  fetches : Nat

/-- The string members of a loaded checkpoint set: only these can ever
equal a target path in the membership checks, and dropping the non-string
members changes no path lookup. -/
def ckptStrings (l : List JVal) : List String :=
  l.filterMap fun j =>
    match j with
    | .str s => some s
    | _ => none

/-- Model of collect_files (lines 332-454): require the manifest, load the
checkpoint when resuming, read the urls, pre-filter already satisfied urls
only when resuming with a non-empty loaded checkpoint set (the source tests
the truthiness of the raw loaded set, so non-string members count toward
non-emptiness), run the remaining tasks, and persist the checkpoint once
when resuming. Path lookups in the set go through its string members,
the only ones a target path can ever equal; likewise savedCkpt holds the
string members of the persisted set, since non-string members carried from
the file to the save can never equal a target path. The two early returns,
on an empty manifest and on nothing remaining, skip the save. -/
def collect_files (domain : String) (manifest : Option (List ManifestLine))
    (ckptFile : CheckpointFile) (disk : List String)
    (fetchOk : String → Bool) (resume : Bool) : Except SessionErr CFResult :=
  match manifest with
  | none => .error .mediaFileNotFound
  | some lines =>
    match (if resume then load_checkpoint ckptFile else .ok []) with
    | .error e => .error (.pyRaise e)
    | .ok checkpointRaw =>
      let checkpoint := ckptStrings checkpointRaw
      let urls := readMediaUrls lines
      let total := urls.length
      if total = 0 then .ok ⟨⟨0, 0, 0, 0⟩, none, 0⟩
      else
        let satisfied := fun u =>
          decide (targetPath domain u ∈ checkpoint ∨ targetPath domain u ∈ disk)
        let remaining :=
          if resume ∧ checkpointRaw.isEmpty = false then urls.filter (fun u => !satisfied u)
          else urls
        let skipped :=
          if resume ∧ checkpointRaw.isEmpty = false then (urls.filter satisfied).length else 0
        if remaining.isEmpty then .ok ⟨⟨0, 0, skipped, total⟩, none, 0⟩
        else
          let stF := runTasks fetchOk domain remaining ⟨checkpoint, disk, 0, 0, 0⟩
          .ok ⟨⟨stF.downloaded, stF.failed, skipped, total⟩,
            if resume then some stF.ckpt else none, stF.fetches⟩

/-! ## Concrete fixtures used by the claim-level theorems -/

/-- A descriptor declaring paginated arguments but carrying no self link. -/
def rdPaginatedNoSelf : JVal :=
  .obj [("endpoints", .arr [.obj [("args", .obj [("page", .null), ("per_page", .null)])]])]

/-- Fields of a paginated descriptor with a resolvable self link. -/
def rdPostsLike : List (String × JVal) :=
  [("endpoints", .arr [.obj [("args", .obj [("page", .null), ("per_page", .null)])]]),
   ("_links", .obj [("self", .str "http://x/wp-json/wp/v2/posts/123")])]

/-- A reference table listing one public-list route. -/
def kr1 : KnownRoutes := ⟨[], ["/wp/v2/posts"], [], []⟩

/-- A one-route discovery session over that public-list route. -/
def routes1 : List (String × JVal) :=
  [("/wp/v2/posts", selfLinkRD (.str "http://x/wp-json/wp/v2/posts"))]

/-- A page oracle whose first page succeeds with two rows at the first
attempt and whose later pages always fail with transport errors. -/
def attOneGoodPage : Nat → Nat → Attempt := fun page _ =>
  if page = 1 then .resp ⟨200, none, none, some (.arr [.num 1, .num 2])⟩
  else .transErr

/-- A page oracle whose first page carries two rows and whose second page is
an empty list, both without pagination headers. -/
def attTwoThenEmpty : Nat → Nat → Attempt := fun page _ =>
  if page = 1 then .resp ⟨200, none, none, some (.arr [.num 1, .num 2])⟩
  else .resp ⟨200, none, none, some (.arr [])⟩

/-! ## Helper lemmas -/

/-- A first attempt that yields an accepted response settles the retry loop
at once. -/
theorem retryLoop_first_ok (att : Nat → Attempt) (rc : Nat) (r : WpResponse)
    (h : att 1 = .resp r) (hs : r.status < 400) (hrc : 1 ≤ rc) :
    retryLoop att rc = .gotResp r := by
  obtain ⟨n, rfl⟩ : ∃ n, rc = n + 1 := ⟨rc - 1, by omega⟩
  unfold retryLoop
  simp only [retryLoopFrom, h]
  rw [if_neg (by omega)]

/-! ## Claim C2 -/

/-- C2: whenever the dump loop reaches a page whose bounded retry loop
exhausts all attempts with transport failures, dump_route_list returns
aborted, whatever rows earlier pages accumulated: the accumulated buffer is
discarded and no output file, partial or otherwise, is created. Since the
loop of dump_route_list starts at page 1 with an empty buffer, this covers
every state a run can reach. -/
theorem c2_retry_exhaustion_discards_accumulated_pages
    (att : Nat → Nat → Attempt) (retry_count fuel page : Nat)
    (outdata : List JVal) (total_pages : Option Int)
    (h : retryLoop (att page) retry_count = .failedAll) :
    dumpPages att retry_count (fuel + 1) page outdata total_pages = .aborted ∧
    writtenLineCount (dumpPages att retry_count (fuel + 1) page outdata total_pages) = none := by
  have e : dumpPages att retry_count (fuel + 1) page outdata total_pages = .aborted := by
    unfold dumpPages
    rw [h]
  exact ⟨e, by rw [e]; rfl⟩

/-- C2 witness: a run whose first page succeeded with two rows and whose
second page exhausts a two-attempt retry budget discards the two rows. -/
theorem c2_retry_exhaustion_discards_accumulated_pages_witness :
    dumpPages attOneGoodPage 2 (4 + 1) 2 [.num 1, .num 2] none = .aborted ∧
    writtenLineCount (dumpPages attOneGoodPage 2 (4 + 1) 2 [.num 1, .num 2] none) = none :=
  c2_retry_exhaustion_discards_accumulated_pages attOneGoodPage 2 4 2 [.num 1, .num 2] none rfl

/-! ## Claim C4 -/

/-- C5: a paginated route whose first page yields a two-row list and whose
second page yields an empty list, with no pagination headers on page one,
dumps exactly those two rows: one output file whose name strips the outer
slashes of the route, replaces inner slashes with underscores, and appends
the jsonl suffix, holding exactly two lines. -/
theorem c5_two_rows_then_empty (att : Nat → Nat → Attempt)
    (retry_count fuel : Nat) (x y : JVal) (hdr2a hdr2b : Option String)
    (h1 : att 1 1 = .resp ⟨200, none, none, some (.arr [x, y])⟩)
    (h2 : att 2 1 = .resp ⟨200, hdr2a, hdr2b, some (.arr [])⟩)
    (hrc : 1 ≤ retry_count) (hfuel : 2 ≤ fuel) :
    dump_route_list att retry_count fuel = .written [x, y] ∧
    writtenLineCount (dump_route_list att retry_count fuel) = some 2 ∧
    listOutFileName "/wp/v2/posts/" = "wp_v2_posts.jsonl" := by
  obtain ⟨f, rfl⟩ : ∃ f, fuel = f + 2 := ⟨fuel - 2, by omega⟩
  have g1 : retryLoop (att 1) retry_count = .gotResp ⟨200, none, none, some (.arr [x, y])⟩ :=
    retryLoop_first_ok _ _ _ h1 (by norm_num) hrc
  have g2 : retryLoop (att 2) retry_count = .gotResp ⟨200, hdr2a, hdr2b, some (.arr [])⟩ :=
    retryLoop_first_ok _ _ _ h2 (by norm_num) hrc
  have e : dump_route_list att retry_count (f + 2) = .written [x, y] := by
    unfold dump_route_list
    show dumpPages att retry_count (f + 1 + 1) 1 [] none = _
    unfold dumpPages
    rw [g1]
    simp only [readTotalPages, tpTruthy]
    norm_num
    unfold dumpPages
    rw [g2]
    norm_num
  exact ⟨e, by rw [e]; rfl, rfl⟩

/-- C5 witness: the two-then-empty oracle with the default retry budget. -/
theorem c5_two_rows_then_empty_witness :
    dump_route_list attTwoThenEmpty 5 10 = .written [.num 1, .num 2] ∧
    writtenLineCount (dump_route_list attTwoThenEmpty 5 10) = some 2 ∧
    listOutFileName "/wp/v2/posts/" = "wp_v2_posts.jsonl" :=
  c5_two_rows_then_empty attTwoThenEmpty 5 10 (.num 1) (.num 2) none none rfl rfl
    (by omega) (by omega)

/-! ## Claim C6 -/

/-- C6 counterexample: a checkpoint file holding the valid JSON document
consisting of an empty top-level array is not the expected well-formed
checkpoint document, yet loading it raises AttributeError instead of
returning the empty set. -/
theorem c6_wrong_shape_checkpoint_raises :
    load_checkpoint (some (some (.arr []))) = .error .attrErr ∧
    ∀ e : PyErr, Except.error e ≠ (.ok ([] : List JVal) : Except PyErr (List JVal)) :=
  ⟨rfl, fun _ h => Except.noConfusion h⟩

/-- C6 (amended): an absent checkpoint file and a file whose content does
not parse as JSON both load as the empty set without raising, and a
well-formed document loads its path list; however content that parses to
JSON of an unexpected shape can raise instead. -/
theorem c6_load_checkpoint_amended (paths : List String) :
    load_checkpoint none = .ok [] ∧
    load_checkpoint (some none) = .ok [] ∧
    load_checkpoint (some (some (.obj
      [("downloaded_files", .arr (paths.map JVal.str)), ("last_updated", .num 0)]))) =
      .ok (paths.map JVal.str) := by
  refine ⟨rfl, rfl, ?_⟩
  show pySetOfDownloaded (.arr (paths.map JVal.str)) = .ok (paths.map JVal.str)
  have hall : ∀ l : List String, ((l.map JVal.str).all fun it =>
      match it with | JVal.arr _ => false | JVal.obj _ => false | _ => true) = true := by
    intro l
    induction l with
    | nil => rfl
    | cons a t ih => simp [ih]
  simp only [pySetOfDownloaded, hall, if_true]

/-! ## Claim C7 -/

/-- C7 counterexample: a self link that is an object without an href key
makes get_self_url raise KeyError, against the claim that the function is
total and returns None on every shape outside the three good ones. -/
theorem c7_href_missing_raises :
    get_self_url (selfLinkRD (.obj [])) = .error .keyErr ∧
    ∀ r : Option JVal, (Except.error .keyErr : Except PyErr (Option JVal)) ≠ .ok r :=
  ⟨rfl, fun _ h => Except.noConfusion h⟩

/-- C7 (amended): get_self_url returns the href for the three good shapes,
object with href, bare string, and non-empty list headed by an object with
href; it returns None when the links or self key is missing, on the empty
list, and on a scalar self value; but it is not total: it raises KeyError
when an object self link (or the head of a list one) lacks the href key,
AttributeError when the links value is not a dict, and TypeError when a
list self link is headed by a value that rejects string indexing. -/
theorem c7_get_self_url_shapes (h v : JVal) (s : String) (rest : List JVal) (n : Int) :
    get_self_url (.obj []) = .ok none ∧
    get_self_url (.obj [("_links", .obj [])]) = .ok none ∧
    get_self_url (selfLinkRD (.obj [("href", h)])) = .ok (some h) ∧
    get_self_url (selfLinkRD (.str s)) = .ok (some (.str s)) ∧
    get_self_url (selfLinkRD (.arr (.obj [("href", h)] :: rest))) = .ok (some h) ∧
    get_self_url (selfLinkRD (.arr [])) = .ok none ∧
    get_self_url (selfLinkRD (.num n)) = .ok none ∧
    get_self_url (selfLinkRD .null) = .ok none ∧
    get_self_url (selfLinkRD (.obj [("title", v)])) = .error .keyErr ∧
    get_self_url (selfLinkRD (.arr (.obj [("title", v)] :: rest))) = .error .keyErr ∧
    get_self_url (.obj [("_links", .str s)]) = .error .attrErr ∧
    get_self_url (selfLinkRD (.arr (.str s :: rest))) = .error .typeErr :=
  ⟨rfl, rfl, rfl, rfl, rfl, rfl, rfl, rfl, rfl, rfl, rfl, rfl⟩

/-- Reduction of test_route for a non-regex route with well-shaped
endpoints and no resolvable self link: the tester returns unresolved before
any probe decision is consulted. -/
theorem test_route_no_self (route : String)
    (rdFields endpointFields : List (String × JVal)) (epRest : List JVal)
    (p1 p2 : ProbeResult)
    (hq : pySubstr "?P<" route = false)
    (hep : List.lookup "endpoints" rdFields = some (.arr (.obj endpointFields :: epRest)))
    (hself : get_self_url (.obj rdFields) = .ok none) :
    test_route route (.obj rdFields) p1 p2 = .ok none := by
  unfold test_route
  rw [hq]
  simp only [Bool.false_eq_true, if_false, hep, Option.getD_some]
  by_cases hap : argsPaginated ((List.lookup "args" endpointFields).getD (.obj [])) = true
  · simp only [hap, if_true, hself, pyTruthy, Bool.false_eq_true, if_false]
  · rw [if_neg (by simp [hap])]
    simp only [hself, pyTruthy, Bool.false_eq_true, if_false]

/-- Reduction of test_route for a non-regex route with well-shaped
endpoints, a truthy self link, and an inconclusive or skipped paginated
probe: the result is the bare-probe decision. -/
theorem test_route_reaches_bare (route : String)
    (rdFields endpointFields : List (String × JVal)) (epRest : List JVal)
    (u : JVal) (p1 p2 : ProbeResult)
    (hq : pySubstr "?P<" route = false)
    (hep : List.lookup "endpoints" rdFields = some (.arr (.obj endpointFields :: epRest)))
    (hself : get_self_url (.obj rdFields) = .ok (some u))
    (htru : pyTruthy (some u) = true)
    (hp1 : probe1Decision p1 = none) :
    test_route route (.obj rdFields) p1 p2 =
      .ok (bareProbeDecision route ((List.lookup "args" endpointFields).getD (.obj [])) p2) := by
  unfold test_route
  rw [hq]
  simp only [Bool.false_eq_true, if_false, hep, Option.getD_some]
  by_cases hap : argsPaginated ((List.lookup "args" endpointFields).getD (.obj [])) = true
  · simp only [hap, if_true, hself, htru, if_true, hp1]
  · rw [if_neg (by simp [hap])]
    simp only [hself, htru, if_true]

/-! ## Claim C3 -/

/-- C3 counterexample: a route that declares both page and per_page but has
no resolvable self link is left unresolved by the tester, against the claim
that it falls back to PublicList. -/
theorem c3_no_self_link_is_left_unresolved :
    test_route "/wp/v2/foo" rdPaginatedNoSelf .transErr .transErr = .ok none ∧
    (Except.ok none : Except PyErr (Option RouteCategory)) ≠ .ok (some .publicList) :=
  ⟨rfl, fun hcon => Option.noConfusion (Except.ok.inj hcon)⟩

/-- C3 (amended): for a non-regex route whose first endpoint is an object,
a route with no resolvable self link is left unresolved whatever its
declared arguments, while a route with a truthy self link whose probes all
raise transport errors falls back on the shape of the declared args value:
PublicList when it is a dict holding both page and per_page, PublicDict
when it is any other dict, including the empty one, and unresolved
otherwise. -/
theorem c3_transport_fallback_by_args (route : String)
    (rdFields endpointFields : List (String × JVal)) (epRest : List JVal)
    (u : JVal) (p1 p2 : ProbeResult)
    (hq : pySubstr "?P<" route = false)
    (hep : List.lookup "endpoints" rdFields = some (.arr (.obj endpointFields :: epRest))) :
    (get_self_url (.obj rdFields) = .ok none →
      test_route route (.obj rdFields) p1 p2 = .ok none) ∧
    (get_self_url (.obj rdFields) = .ok (some u) → pyTruthy (some u) = true →
      test_route route (.obj rdFields) .transErr .transErr =
        .ok (let args := (List.lookup "args" endpointFields).getD (.obj [])
             if argsPaginated args then some .publicList
             else if args.isObj then some .publicDict
             else none)) := by
  constructor
  · intro hself
    exact test_route_no_self route rdFields endpointFields epRest p1 p2 hq hep hself
  · intro hself htru
    rw [test_route_reaches_bare route rdFields endpointFields epRest u
      .transErr .transErr hq hep hself htru rfl]
    rfl

/-- C3 witness: the amended fallbacks at concrete descriptors, the
paginated one with a self link falling back to PublicList and the
no-self-link one left unresolved. -/
theorem c3_transport_fallback_by_args_witness :
    test_route "/wp/v2/foo" (.obj rdPostsLike) .transErr .transErr = .ok (some .publicList) ∧
    test_route "/wp/v2/foo" rdPaginatedNoSelf .transErr .transErr = .ok none := by
  constructor
  · exact (c3_transport_fallback_by_args "/wp/v2/foo" rdPostsLike
      [("args", .obj [("page", .null), ("per_page", .null)])] []
      (.str "http://x/wp-json/wp/v2/posts/123") .transErr .transErr rfl rfl).2 rfl rfl
  · exact (c3_transport_fallback_by_args "/wp/v2/foo"
      [("endpoints", .arr [.obj [("args", .obj [("page", .null), ("per_page", .null)])]])]
      [("args", .obj [("page", .null), ("per_page", .null)])] []
      (.str "") .transErr .transErr rfl rfl).1 rfl

/-! ## Claim C9 -/

/-- C9: a live-probed route whose bare self-link probe answers 200 with a
single object holding an id field is classified Useless whenever the final
path segment contains a digit and the split path has more than three parts,
provided the route reaches that probe: the self link resolves to a truthy
URL, the first endpoint is an object, and the paginated probe, when taken,
is inconclusive. A regex route short-circuits to the same category. -/
theorem c9_numeric_item_probe_is_useless (route : String)
    (rdFields endpointFields bodyFields : List (String × JVal))
    (epRest : List JVal) (u idv : JVal) (p1 : ProbeResult)
    (hep : List.lookup "endpoints" rdFields = some (.arr (.obj endpointFields :: epRest)))
    (hself : get_self_url (.obj rdFields) = .ok (some u))
    (htru : pyTruthy (some u) = true)
    (hp1 : probe1Decision p1 = none)
    (hid : List.lookup "id" bodyFields = some idv)
    (hshape : routeLooksPerItem route = true) :
    test_route route (.obj rdFields) p1 (.resp 200 (some (.obj bodyFields))) =
      .ok (some .useless) := by
  by_cases hq : pySubstr "?P<" route = true
  · unfold test_route
    rw [hq]
    rfl
  · rw [Bool.not_eq_true] at hq
    rw [test_route_reaches_bare route rdFields endpointFields epRest u p1
      (.resp 200 (some (.obj bodyFields))) hq hep hself htru hp1]
    simp [bareProbeDecision, hshape, bodyIsObjWithId, hid]

/-- C9 witness: the posts item route with a numeric suffix probes to a 200
object with an id and is classified Useless. -/
theorem c9_numeric_item_probe_is_useless_witness :
    test_route "/wp/v2/posts/123" (.obj rdPostsLike) .transErr
      (.resp 200 (some (.obj [("id", .num 123)]))) = .ok (some .useless) :=
  c9_numeric_item_probe_is_useless "/wp/v2/posts/123" rdPostsLike
    [("args", .obj [("page", .null), ("per_page", .null)])] [("id", .num 123)] []
    (.str "http://x/wp-json/wp/v2/posts/123") (.num 123) .transErr
    rfl rfl rfl rfl rfl rfl

/-- A route step can only abort by an escaping KeyboardInterrupt from one
of the two dumper calls. -/
theorem routeStep_ne_interrupt (kr : KnownRoutes) (gu : Bool)
    (dl dd : String → CallOutcome) (route : String) (rd : JVal)
    (hdl : dl route ≠ .kbInt) (hdd : dd route ≠ .kbInt) :
    routeStep kr gu dl dd route rd ≠ .interrupt := by
  unfold routeStep
  repeat' split
  all_goals simp_all

/-- When every dumper call raises a caught Exception, every route step is a
skip. -/
theorem routeStep_all_exc (kr : KnownRoutes) (gu : Bool) (route : String) (rd : JVal) :
    routeStep kr gu (fun _ => .exc) (fun _ => .exc) route rd = .skipped := by
  unfold routeStep
  repeat' split
  all_goals simp_all

/-- When no step aborts, the loop completes and adds exactly one to one of
the two counters per route. -/
theorem collectLoop_total (kr : KnownRoutes) (gu : Bool)
    (dl dd : String → CallOutcome)
    (hstep : ∀ r rd, routeStep kr gu dl dd r rd ≠ .interrupt) :
    ∀ (routes : List (String × JVal)) (p s : Nat),
      ∃ p' s', collectLoop kr gu dl dd routes p s = .done p' s' ∧
        p' + s' = p + s + routes.length := by
  intro routes
  induction routes with
  | nil => exact fun p s => ⟨p, s, rfl, by simp⟩
  | cons head tail ih =>
    intro p s
    obtain ⟨route, rd⟩ := head
    cases hres : routeStep kr gu dl dd route rd with
    | processed =>
      obtain ⟨p', s', h1, h2⟩ := ih (p + 1) s
      exact ⟨p', s', by simp only [collectLoop, hres, h1], by rw [List.length_cons]; omega⟩
    | skipped =>
      obtain ⟨p', s', h1, h2⟩ := ih p (s + 1)
      exact ⟨p', s', by simp only [collectLoop, hres, h1], by rw [List.length_cons]; omega⟩
    | interrupt => exact absurd hres (hstep route rd)

/-- When every step skips, the loop completes with all routes skipped. -/
theorem collectLoop_all_skipped (kr : KnownRoutes) (gu : Bool)
    (dl dd : String → CallOutcome)
    (hstep : ∀ r rd, routeStep kr gu dl dd r rd = .skipped) :
    ∀ (routes : List (String × JVal)) (p s : Nat),
      collectLoop kr gu dl dd routes p s = .done p (s + routes.length) := by
  intro routes
  induction routes with
  | nil => exact fun p s => rfl
  | cons head tail ih =>
    intro p s
    obtain ⟨route, rd⟩ := head
    have h1 := ih p (s + 1)
    simp only [collectLoop, hstep route rd, h1, List.length_cons]
    congr 1
    omega

/-! ## Claim C1 -/

/-- C1 counterexample: a dumper raising KeyboardInterrupt is not caught by
the per-route handler, so the one-route session aborts with neither counter
incremented, against the claim that any exception thrown by a dumper is
caught, counted as skipped, and never aborts the iteration. -/
theorem c1_keyboard_interrupt_aborts_loop :
    collect_data_loop kr1 true (fun _ => .kbInt) (fun _ => .ok) routes1 = .interrupted 0 0 ∧
    ¬ ∃ p s, collect_data_loop kr1 true (fun _ => .kbInt) (fun _ => .ok) routes1 = .done p s ∧
      p + s = routes1.length := by
  refine ⟨rfl, ?_⟩
  rintro ⟨p, s, h, -⟩
  rw [show collect_data_loop kr1 true (fun _ => .kbInt) (fun _ => .ok) routes1 =
    .interrupted 0 0 from rfl] at h
  exact CollectOutcome.noConfusion h

/-- C1 (amended): when no dumper call raises KeyboardInterrupt, every
discovered route increments exactly one of the two counters, so the loop
completes with processed plus skipped equal to the total route count; and
when every dumper call raises a caught Exception the loop still completes,
counting every route as skipped, so one bad route never aborts the session.
A KeyboardInterrupt raised inside a dumper is the one exception that
escapes the per-route handler and aborts the iteration. -/
theorem c1_route_accounting (kr : KnownRoutes) (gu : Bool)
    (dl dd : String → CallOutcome) (routes : List (String × JVal))
    (hdl : ∀ r, dl r ≠ .kbInt) (hdd : ∀ r, dd r ≠ .kbInt) :
    (∃ p s, collect_data_loop kr gu dl dd routes = .done p s ∧ p + s = routes.length) ∧
    collect_data_loop kr gu (fun _ => .exc) (fun _ => .exc) routes =
      .done 0 routes.length := by
  constructor
  · obtain ⟨p', s', h1, h2⟩ :=
      collectLoop_total kr gu dl dd
        (fun r rd => routeStep_ne_interrupt kr gu dl dd r rd (hdl r) (hdd r)) routes 0 0
    exact ⟨p', s', h1, by omega⟩
  · have h := collectLoop_all_skipped kr gu (fun _ => .exc) (fun _ => .exc)
      (fun r rd => routeStep_all_exc kr gu r rd) routes 0 0
    simpa using h

/-- C1 witness: the one-route session with well-behaved dumpers completes
with the counters summing to one. -/
theorem c1_route_accounting_witness :
    (∃ p s, collect_data_loop kr1 true (fun _ => .ok) (fun _ => .ok) routes1 = .done p s ∧
      p + s = routes1.length) ∧
    collect_data_loop kr1 true (fun _ => .exc) (fun _ => .exc) routes1 =
      .done 0 routes1.length :=
  c1_route_accounting kr1 true (fun _ => .ok) (fun _ => .ok) routes1
    (fun _ h => CallOutcome.noConfusion h) (fun _ h => CallOutcome.noConfusion h)

/-- One download task leaves the checkpoint set unchanged unless its
network fetch succeeded, in which case it pushes exactly its target path. -/
theorem downloadFileTask_ckpt_cases (fetchOk : String → Bool) (domain u : String)
    (st : DlState) :
    (downloadFileTask fetchOk domain u st).2.ckpt = st.ckpt ∨
    (fetchOk u = true ∧
      (downloadFileTask fetchOk domain u st).2.ckpt = targetPath domain u :: st.ckpt) := by
  by_cases hpre : targetPath domain u ∈ st.ckpt ∨ targetPath domain u ∈ st.disk
  · left
    unfold downloadFileTask
    rw [if_pos hpre]
  · unfold downloadFileTask
    rw [if_neg hpre]
    unfold getFileStep
    rw [if_neg (fun hd => hpre (Or.inr hd))]
    by_cases hf : fetchOk u = true
    · rw [if_pos hf]
      exact Or.inr ⟨hf, rfl⟩
    · rw [if_neg hf]
      exact Or.inl rfl

/-- Across a whole task list, a path can enter the checkpoint set only from
the initial set or through a task whose network fetch succeeded on a url
mapping to it. -/
theorem runTasks_ckpt_only_after_fetch (fetchOk : String → Bool) (domain : String) :
    ∀ (urls : List String) (st : DlState) (p : String),
      p ∈ (runTasks fetchOk domain urls st).ckpt →
      p ∈ st.ckpt ∨ ∃ u ∈ urls, targetPath domain u = p ∧ fetchOk u = true := by
  intro urls
  induction urls with
  | nil => exact fun st p hp => Or.inl hp
  | cons u rest ih =>
    intro st p hp
    have hcases := downloadFileTask_ckpt_cases fetchOk domain u st
    rcases htask : downloadFileTask fetchOk domain u st with ⟨ok, st'⟩
    rw [htask] at hcases
    simp only [runTasks, htask] at hp
    have hrest : p ∈ st'.ckpt ∨ ∃ v ∈ rest, targetPath domain v = p ∧ fetchOk v = true := by
      cases ok with
      | true => exact ih { st' with downloaded := st'.downloaded + 1 } p hp
      | false => exact ih { st' with failed := st'.failed + 1 } p hp
    rcases hrest with hin | ⟨v, hv, hvp, hvf⟩
    · rcases hcases with heq | ⟨hf, heq⟩
      · exact Or.inl (heq ▸ hin)
      · rw [heq] at hin
        rcases List.mem_cons.mp hin with rfl | hin'
        · exact Or.inr ⟨u, List.mem_cons_self u rest, rfl, hf⟩
        · exact Or.inl hin'
    · exact Or.inr ⟨v, List.mem_cons_of_mem u hv, hvp, hvf⟩

/-- When every target is already on disk, the tasks perform no fetch and
count everything as downloaded. -/
theorem runTasks_all_on_disk (fetchOk : String → Bool) (domain : String) :
    ∀ (urls : List String) (st : DlState),
      (∀ u ∈ urls, targetPath domain u ∈ st.disk) →
      runTasks fetchOk domain urls st =
        { st with downloaded := st.downloaded + urls.length } := by
  intro urls
  induction urls with
  | nil => intro st _; simp [runTasks]
  | cons u rest ih =>
    intro st h
    have htask : downloadFileTask fetchOk domain u st = (true, st) := by
      unfold downloadFileTask
      rw [if_pos (Or.inr (h u (List.mem_cons_self u rest)))]
    simp only [runTasks, htask]
    rw [ih { st with downloaded := st.downloaded + 1 }
      (fun v hv => h v (List.mem_cons_of_mem u hv))]
    simp only [List.length_cons, DlState.mk.injEq, true_and, and_true]
    omega

/-! ## Claim C8 -/

/-- C8: a target path enters the in-memory checkpoint set only after the
network fetch for a url mapping to it succeeded; and in a session over a
one-entry manifest whose fetch fails, with the target neither on disk nor
checkpointed, the statistics report one failure and zero downloads and the
persisted checkpoint, when written, does not contain the target path. -/
theorem c8_checkpoint_only_after_success (domain u : String) (disk : List String)
    (fetchOk : String → Bool) (resume : Bool)
    (hdisk : targetPath domain u ∉ disk) (hfail : fetchOk u = false) :
    (∀ (urls : List String) (st : DlState) (p : String),
      p ∈ (runTasks fetchOk domain urls st).ckpt →
      p ∈ st.ckpt ∨ ∃ v ∈ urls, targetPath domain v = p ∧ fetchOk v = true) ∧
    (∃ r, collect_files domain (some [some (.obj [("source_url", .str u)])])
        none disk fetchOk resume = .ok r ∧
      r.stats.failed = 1 ∧ r.stats.downloaded = 0 ∧
      ∀ ck, r.savedCkpt = some ck → targetPath domain u ∉ ck) := by
  constructor
  · exact runTasks_ckpt_only_after_fetch fetchOk domain
  · have hurls : readMediaUrls [some (.obj [("source_url", .str u)])] = [u] := rfl
    have htask : downloadFileTask fetchOk domain u ⟨[], disk, 0, 0, 0⟩ =
        (false, ⟨[], disk, 0, 0, 1⟩) := by
      unfold downloadFileTask
      rw [if_neg (by simp [hdisk])]
      unfold getFileStep
      rw [if_neg hdisk, if_neg (by simp [hfail])]
    have hrun : runTasks fetchOk domain [u] ⟨[], disk, 0, 0, 0⟩ = ⟨[], disk, 0, 1, 1⟩ := by
      simp only [runTasks, htask]
    have hload : (if resume then load_checkpoint none
        else (.ok [] : Except PyErr (List JVal))) = .ok [] := by
      cases resume <;> rfl
    have hsession : collect_files domain (some [some (.obj [("source_url", .str u)])])
        none disk fetchOk resume =
        .ok ⟨⟨0, 1, 0, 1⟩, if resume then some [] else none, 1⟩ := by
      unfold collect_files
      rw [hload]
      simp only [hurls, List.length_cons, List.length_nil]
      simp [ckptStrings, hrun]
    refine ⟨⟨⟨0, 1, 0, 1⟩, if resume then some [] else none, 1⟩, hsession, rfl, rfl, ?_⟩
    intro ck hck
    cases resume with
    | true =>
      simp only [if_true] at hck
      cases hck
      simp
    | false => simp at hck

/-- C8 witness: the one-entry failing session at concrete inputs. -/
theorem c8_checkpoint_only_after_success_witness :
    (∀ (urls : List String) (st : DlState) (p : String),
      p ∈ (runTasks (fun _ => false) "d" urls st).ckpt →
      p ∈ st.ckpt ∨ ∃ v ∈ urls, targetPath "d" v = p ∧ (fun _ => false) v = true) ∧
    (∃ r, collect_files "d" (some [some (.obj [("source_url", .str "http://x/a.jpg")])])
        none [] (fun _ => false) true = .ok r ∧
      r.stats.failed = 1 ∧ r.stats.downloaded = 0 ∧
      ∀ ck, r.savedCkpt = some ck → targetPath "d" "http://x/a.jpg" ∉ ck) :=
  c8_checkpoint_only_after_success "d" "http://x/a.jpg" [] (fun _ => false) true
    (by simp) rfl

/-! ## Claim C10 -/

/-- C10: with resume off, or with resume on but an empty loaded checkpoint
set, no pre-filtering happens: skipped stays zero, manifest urls whose
target file already exists on disk are still dispatched as tasks, each
completes without any network fetch, and every one of them is counted as
downloaded, so the downloaded statistic can exceed the number of files
actually fetched over the network. -/
theorem c10_on_disk_counts_as_downloaded (domain : String)
    (lines : List ManifestLine) (ckptFile : CheckpointFile) (disk : List String)
    (fetchOk : String → Bool) (resume : Bool)
    (hck : resume = false ∨ load_checkpoint ckptFile = .ok [])
    (hdisk : ∀ u ∈ readMediaUrls lines, targetPath domain u ∈ disk) :
    ∃ r, collect_files domain (some lines) ckptFile disk fetchOk resume = .ok r ∧
      r.stats.downloaded = (readMediaUrls lines).length ∧
      r.stats.skipped = 0 ∧ r.stats.failed = 0 ∧ r.fetches = 0 := by
  have hload : (if resume then load_checkpoint ckptFile
      else (.ok [] : Except PyErr (List JVal))) = .ok [] := by
    rcases hck with rfl | h
    · rfl
    · cases resume
      · rfl
      · exact h
  by_cases hemp : readMediaUrls lines = []
  · refine ⟨⟨⟨0, 0, 0, 0⟩, none, 0⟩, ?_, by simp [hemp], rfl, rfl, rfl⟩
    unfold collect_files
    rw [hload]
    simp [hemp]
  · have hrun := runTasks_all_on_disk fetchOk domain (readMediaUrls lines)
      ⟨[], disk, 0, 0, 0⟩ hdisk
    refine ⟨⟨⟨(readMediaUrls lines).length, 0, 0, (readMediaUrls lines).length⟩,
      if resume then some [] else none, 0⟩, ?_, rfl, rfl, rfl, rfl⟩
    unfold collect_files
    rw [hload]
    simp [ckptStrings, hrun, List.isEmpty_iff, hemp]

/-- C10 witness: a one-entry manifest whose target already exists, with
resume on and no checkpoint file, reports one download, zero skips, and
zero fetches. -/
theorem c10_on_disk_counts_as_downloaded_witness :
    ∃ r, collect_files "d" (some [some (.obj [("source_url", .str "http://x/a.jpg")])])
        none ["d/files/a.jpg"] (fun _ => false) true = .ok r ∧
      r.stats.downloaded =
        (readMediaUrls [some (.obj [("source_url", .str "http://x/a.jpg")])]).length ∧
      r.stats.skipped = 0 ∧ r.stats.failed = 0 ∧ r.fetches = 0 :=
  c10_on_disk_counts_as_downloaded "d" [some (.obj [("source_url", .str "http://x/a.jpg")])]
    none ["d/files/a.jpg"] (fun _ => false) true (Or.inr rfl) (by decide)

end Wparc